import Mathlib

/-!
Verification of the process-lifecycle supervisor and status-streaming bridge
of `src/src-tauri/src/main.rs` (savisxss/Patcher).

The stateful Rust code is shallowly embedded as pure Lean functions:
OS and network effects (spawn, try_wait, kill, HTTP exchanges, JSON decode)
are passed in as explicit outcome values, and the polling loop is a fold
over the list of responses the remote endpoint returns across iterations.
-/

namespace Patcher

/-- Structure `LogEntry` from main.rs lines 46-51: a message with a severity tag. -/
structure LogEntry where
  message : String
  log_type : String
deriving DecidableEq, Repr

/-- Structure `VerificationReport` from main.rs lines 30-34. -/
structure VerificationReport where
  verified : List String
  corrupted : List String
deriving DecidableEq, Repr

/-- Structure `StatusReport` from main.rs lines 22-28. -/
structure StatusReport where
  updated : List String
  skipped : List String
  failed : List String
  verification : VerificationReport
deriving DecidableEq, Repr

/-- Structure `ProgressData` from main.rs lines 36-44: one polled status snapshot. -/
structure ProgressData where
  progress : Nat
  total : Nat
  logs : List LogEntry
  completed : Bool
  error : Option String
  status_report : Option StatusReport
deriving DecidableEq, Repr

/-- The events `poll_update_status` emits via `emit_all`
(main.rs lines 225, 233, 241, 245). -/
inductive Event where
  | update_progress (progress : Nat) (total : Nat)
  | log_message (entry : LogEntry)
  | update_complete (report : StatusReport)
  | update_error (msg : String)
deriving DecidableEq, Repr

/-- Outcome of one `GET /status` exchange as seen by the loop body:
the transport may fail (main.rs line 251), the body may fail to decode
as `ProgressData` (the `if let Ok(status)` at line 223 falls through),
or a snapshot is obtained. -/
inductive PollResult where
  | transportErr
  | decodeErr
  | ok (status : ProgressData)
deriving DecidableEq, Repr

/-- Fixed inter-poll delay, milliseconds (main.rs line 257). -/
def POLL_DELAY_MS : Nat := 500

/-- One iteration of the `loop` in `poll_update_status` (main.rs lines
215-258), given the delivered-count watermark `last_log_count` and the
poll's outcome. Returns the events emitted this iteration, the new
watermark, and whether the loop `break`s. -/
def pollStep (last_log_count : Nat) (r : PollResult) :
    List Event × Nat × Bool :=
  match r with
  | .transportErr => ([], last_log_count, true)
  | .decodeErr => ([], last_log_count, false)
  | .ok status =>
    let progressEvs : List Event :=
      [.update_progress status.progress status.total]
    let logPair : List Event × Nat :=
      if status.logs.length > last_log_count then
        ((status.logs.drop last_log_count).map Event.log_message,
         status.logs.length)
      else ([], last_log_count)
    let termEvs : List Event :=
      if status.completed then
        (match status.status_report with
         | some report => [Event.update_complete report]
         | none => []) ++
        (match status.error with
         | some e => [Event.update_error e]
         | none => [])
      else []
    (progressEvs ++ logPair.1 ++ termEvs, logPair.2, status.completed)

/-- The whole polling loop run over a list of per-iteration outcomes:
returns the per-iteration event lists together with the final watermark.
The run stops after the first iteration whose step `break`s; responses
beyond that are never requested. -/
def pollRunAux : Nat → List PollResult → List (List Event) × Nat
  | c, [] => ([], c)
  | c, r :: rs =>
    let step := pollStep c r
    if step.2.2 then ([step.1], step.2.1)
    else
      let rest := pollRunAux step.2.1 rs
      (step.1 :: rest.1, rest.2)

/-- All events of a run, in emission order. -/
def pollRun (c : Nat) (rs : List PollResult) : List Event :=
  (pollRunAux c rs).1.flatten

/-- Function `poll_update_status` (main.rs line 211): a run starts with
`last_log_count = 0` (line 213). -/
def poll_update_status (rs : List PollResult) : List Event :=
  pollRun 0 rs

/-- Number of poll iterations a run actually executes. -/
def pollsExecuted (c : Nat) (rs : List PollResult) : Nat :=
  (pollRunAux c rs).1.length

/-- The log entries delivered inside a list of events, in order. -/
def emittedLogs (evs : List Event) : List LogEntry :=
  evs.filterMap fun e =>
    match e with
    | .log_message entry => some entry
    | _ => none

/-- The newly-appended slice a single `ok` iteration delivers
(main.rs lines 231-236): the suffix past the watermark when the list
grew, nothing otherwise. -/
def logDelta (last_log_count : Nat) (s : ProgressData) : List LogEntry :=
  if s.logs.length > last_log_count then s.logs.drop last_log_count
  else []

/-- The terminal events a single `ok` iteration emits
(main.rs lines 238-248). -/
def terminalEvents (s : ProgressData) : List Event :=
  if s.completed then
    (match s.status_report with
     | some report => [Event.update_complete report]
     | none => []) ++
    (match s.error with
     | some e => [Event.update_error e]
     | none => [])
  else []

/-- A status sequence is append-only when each snapshot's log list
extends the previous one. `prev` is the log list of the snapshot
before the first of `snaps` (`[]` at the start of a run). -/
def LogChain : List LogEntry → List ProgressData → Prop
  | _, [] => True
  | prev, s :: rest => (∃ new, s.logs = prev ++ new) ∧ LogChain s.logs rest

/-- The per-poll appended entries the spec says must be delivered:
for each snapshot, the entries past the previous snapshot's length.
(Spec-side definition, to be compared with the code's behaviour.) -/
def specLogDeltas : List LogEntry → List ProgressData → List (List LogEntry)
  | _, [] => []
  | prev, s :: rest => s.logs.drop prev.length :: specLogDeltas s.logs rest

/-- The log list of the last snapshot of the sequence (`prev` if empty). -/
def finalLogs : List LogEntry → List ProgressData → List LogEntry
  | prev, [] => prev
  | _, s :: rest => finalLogs s.logs rest

/-! ## ProcessSupervisor: start_backend / stop_backend -/

/-- Outcome of `child.try_wait()` on the occupant of the slot
(main.rs lines 65-78): exited with some status, still running,
or the check itself failed. -/
inductive TryWait where
  | exited
  | running
  | waitErr
deriving DecidableEq, Repr

/-- Outcome of `Command::new("python")...spawn()` (main.rs lines 82-87):
a new child handle (identified by a pid) or an OS error message. -/
inductive SpawnResult where
  | ok (pid : Nat)
  | err (msg : String)
deriving DecidableEq, Repr

/-- Outcome of `child.kill()` (main.rs line 108). -/
inductive KillResult where
  | ok
  | err (msg : String)
deriving DecidableEq, Repr

/-- Result of a `start_backend` call: the slot afterwards, the returned
`Result<String, String>`, whether a spawn was performed, and whether the
`backend_started` event was emitted. -/
structure StartOutcome where
  slot : Option Nat
  result : Except String String
  spawned : Bool
  emitted_backend_started : Bool
deriving Repr

/-- Function `start_backend` (main.rs lines 56-101). The slot is the content of the
lock-protected `Option<Child>`; `tw` is what `try_wait` would report on the
current occupant (consulted only when the slot is occupied), `sp` what
`spawn` would return (consulted only when a spawn is attempted). -/
def start_backend (slot : Option Nat) (tw : TryWait) (sp : SpawnResult) :
    StartOutcome :=
  match slot with
  | some pid =>
    match tw with
    | .running => ⟨some pid, .ok "Backend already running", false, false⟩
    | _ =>
      match sp with
      | .ok newPid => ⟨some newPid, .ok "Backend started successfully", true, true⟩
      | .err e => ⟨none, .error ("Failed to start backend: " ++ e), false, false⟩
  | none =>
    match sp with
    | .ok newPid => ⟨some newPid, .ok "Backend started successfully", true, true⟩
    | .err e => ⟨none, .error ("Failed to start backend: " ++ e), false, false⟩

/-- Result of a `stop_backend` call: the slot afterwards, the returned
`Result<String, String>`, and whether `child.wait()` was reached. -/
structure StopOutcome where
  slot : Option Nat
  result : Except String String
  waited : Bool
deriving Repr

/-- Function `stop_backend` (main.rs lines 103-118): the `take()` call clears
the slot before `kill` is attempted; `wait` runs only when `kill`
succeeded. -/
def stop_backend (slot : Option Nat) (kill : KillResult) : StopOutcome :=
  match slot with
  | some _ =>
    match kill with
    | .ok => ⟨none, .ok "Backend stopped", true⟩
    | .err e => ⟨none, .error ("Failed to stop backend: " ++ e), false⟩
  | none => ⟨none, .ok "Backend was not running", false⟩

/-! ## check_backend_health -/

/-- Outcome of the `GET /health` exchange (main.rs lines 124-129):
a response with an HTTP status code, or a transport error. -/
inductive HealthResponse where
  | ok (code : Nat)
  | err
deriving DecidableEq, Repr

/-- Predicate `StatusCode::is_success` of the http crate: 2xx, i.e. 200..=299. -/
def status_is_success (code : Nat) : Bool :=
  200 ≤ code && code < 300

/-- Function `check_backend_health` (main.rs lines 120-133): coerces the exchange
to `Ok(bool)`, turning any transport failure into `Ok(false)`. -/
def check_backend_health (r : HealthResponse) : Except String Bool :=
  match r with
  | .ok code => .ok (status_is_success code)
  | .err => .ok false

/-! ## Concrete sample data used by witnesses -/

/-- Sample log entries. -/
def ea : LogEntry := ⟨"a", "info"⟩

def eb : LogEntry := ⟨"b", "info"⟩

def ec : LogEntry := ⟨"c", "info"⟩

def ed : LogEntry := ⟨"d", "info"⟩

def ee : LogEntry := ⟨"e", "info"⟩

/-- A sample terminal status report. -/
def sampleReport : StatusReport := ⟨["f1"], [], [], ⟨["f1"], []⟩⟩

/-- Status sequence whose log lengths are 2, 2, 5 (growing from 0). -/
def chainSnaps : List ProgressData :=
  [⟨1, 9, [ea, eb], false, none, none⟩,
   ⟨2, 9, [ea, eb], false, none, none⟩,
   ⟨3, 9, [ea, eb, ec, ed, ee], false, none, none⟩]

/-- A terminal snapshot carrying both a status report and an error. -/
def sBoth : ProgressData :=
  ⟨9, 9, [ea], true, some "boom", some sampleReport⟩

/-- A snapshot whose log list (length 1) is shorter than the watermark 2. -/
def sShrunk : ProgressData := ⟨3, 9, [ea], false, none, none⟩

/-! ## Helper lemmas -/

/-- Halting step: the run stops after this iteration. -/
theorem pollRunAux_cons_halt (c : Nat) (r : PollResult) (rs : List PollResult)
    (h : (pollStep c r).2.2 = true) :
    pollRunAux c (r :: rs) = ([(pollStep c r).1], (pollStep c r).2.1) := by
  simp [pollRunAux, h]

/-- Non-halting step: the run continues on the remaining responses. -/
theorem pollRunAux_cons_cont (c : Nat) (r : PollResult) (rs : List PollResult)
    (h : (pollStep c r).2.2 = false) :
    pollRunAux c (r :: rs) =
      ((pollStep c r).1 :: (pollRunAux (pollStep c r).2.1 rs).1,
       (pollRunAux (pollStep c r).2.1 rs).2) := by
  simp [pollRunAux, h]

/-- The shape of an `ok` iteration: progress event first, then the log
delta in order, then the terminal events; watermark updated only on
growth; the loop breaks exactly on `completed`. -/
theorem pollStep_ok_eq (c : Nat) (s : ProgressData) :
    pollStep c (PollResult.ok s) =
      (Event.update_progress s.progress s.total ::
        ((logDelta c s).map Event.log_message ++ terminalEvents s),
       (if s.logs.length > c then s.logs.length else c),
       s.completed) := by
  by_cases h : s.logs.length > c <;>
    simp [pollStep, logDelta, terminalEvents, h]

/-- When the watermark is at most the log length (the append-only case),
the delta is exactly the suffix past the watermark and the watermark
advances to the new length. -/
theorem pollStep_ok_mono (c : Nat) (s : ProgressData)
    (hc : c ≤ s.logs.length) :
    pollStep c (PollResult.ok s) =
      (Event.update_progress s.progress s.total ::
        ((s.logs.drop c).map Event.log_message ++ terminalEvents s),
       s.logs.length, s.completed) := by
  rw [pollStep_ok_eq]
  rcases Nat.lt_or_ge c s.logs.length with h | h
  · simp [logDelta, h]
  · have heq : s.logs.length = c := Nat.le_antisymm h hc
    simp [logDelta, heq, List.drop_length]

theorem emittedLogs_append (a b : List Event) :
    emittedLogs (a ++ b) = emittedLogs a ++ emittedLogs b := by
  simp [emittedLogs]

theorem emittedLogs_map_log (l : List LogEntry) :
    emittedLogs (l.map Event.log_message) = l := by
  simp [emittedLogs, List.filterMap_map]
  exact List.filterMap_some l

theorem emittedLogs_terminalEvents (s : ProgressData) :
    emittedLogs (terminalEvents s) = [] := by
  unfold terminalEvents
  cases s.completed <;>
    rcases s.status_report with _ | rp <;>
    rcases s.error with _ | e <;>
    simp [emittedLogs]

theorem emittedLogs_progress_cons (p t : Nat) (evs : List Event) :
    emittedLogs (Event.update_progress p t :: evs) = emittedLogs evs := rfl

/-! ## Claims -/

/-- C1: for an append-only sequence of decoded snapshots on which the run
does not terminate, each poll emits one `log_message` event per entry
appended since the previous poll, in original order, with no duplicates
and no drops (per-poll delivered entries equal exactly the per-poll
appended slices), and the delivered-count watermark ends at the final
log length. -/
theorem C1_log_delta_per_poll (l0 : List LogEntry) (snaps : List ProgressData)
    (hchain : LogChain l0 snaps)
    (hrun : ∀ s ∈ snaps, s.completed = false) :
    ((pollRunAux l0.length (snaps.map PollResult.ok)).1).map emittedLogs =
      specLogDeltas l0 snaps
    ∧ (pollRunAux l0.length (snaps.map PollResult.ok)).2 =
      (finalLogs l0 snaps).length := by
  induction snaps generalizing l0 with
  | nil => exact ⟨rfl, rfl⟩
  | cons s rest ih =>
    obtain ⟨⟨new, hnew⟩, hchain2⟩ := hchain
    have hs : s.completed = false := hrun s (List.mem_cons_self s rest)
    have hc : l0.length ≤ s.logs.length := by
      rw [hnew, List.length_append]
      exact Nat.le_add_right _ _
    have hmono := pollStep_ok_mono l0.length s hc
    have hcont : (pollStep l0.length (PollResult.ok s)).2.2 = false := by
      rw [hmono]
      exact hs
    have hwat : (pollStep l0.length (PollResult.ok s)).2.1 = s.logs.length := by
      rw [hmono]
    obtain ⟨ih1, ih2⟩ :=
      ih s.logs hchain2 (fun x hx => hrun x (List.mem_cons_of_mem s hx))
    rw [List.map_cons, pollRunAux_cons_cont _ _ _ hcont, hwat]
    refine ⟨?_, ?_⟩
    · rw [List.map_cons, ih1]
      show emittedLogs (pollStep l0.length (PollResult.ok s)).1 ::
        specLogDeltas s.logs rest = specLogDeltas l0 (s :: rest)
      rw [hmono]
      show emittedLogs (Event.update_progress s.progress s.total ::
        ((s.logs.drop l0.length).map Event.log_message ++ terminalEvents s)) ::
        specLogDeltas s.logs rest = specLogDeltas l0 (s :: rest)
      rw [emittedLogs_progress_cons, emittedLogs_append, emittedLogs_map_log,
        emittedLogs_terminalEvents, List.append_nil]
      rfl
    · rw [ih2]
      rfl

/-- C1 witness: logs grow 0 → 2 → 2 → 5 across three polls; exactly 2,
then 0, then 3 `log_message` events are emitted, in order, and the
watermark ends at 5. -/
theorem C1_log_delta_per_poll_witness :
    (LogChain [] chainSnaps ∧ ∀ s ∈ chainSnaps, s.completed = false)
    ∧ (((pollRunAux 0 (chainSnaps.map PollResult.ok)).1).map emittedLogs =
        specLogDeltas [] chainSnaps
       ∧ (pollRunAux 0 (chainSnaps.map PollResult.ok)).2 =
        (finalLogs [] chainSnaps).length)
    ∧ (specLogDeltas [] chainSnaps).map List.length = [2, 0, 3]
    ∧ (finalLogs [] chainSnaps).length = 5 :=
  ⟨⟨⟨⟨[ea, eb], rfl⟩, ⟨[], rfl⟩, ⟨[ec, ed, ee], rfl⟩, trivial⟩, by decide⟩,
   C1_log_delta_per_poll [] chainSnaps
     ⟨⟨[ea, eb], rfl⟩, ⟨[], rfl⟩, ⟨[ec, ed, ee], rfl⟩, trivial⟩ (by decide),
   by decide, by decide⟩

/-- C2: a decoded snapshot makes the loop break exactly when
`completed = true`; on such a terminal snapshot exactly one poll runs
(no further polls occur), `update_complete` is emitted exactly when
`status_report` is present, and `update_error` exactly when `error` is
present — both when both are present. -/
theorem C2_terminal_detection (c : Nat) (s : ProgressData)
    (rest : List PollResult) :
    ((pollStep c (PollResult.ok s)).2.2 = s.completed)
    ∧ (s.completed = true →
        pollsExecuted c (PollResult.ok s :: rest) = 1
        ∧ (∀ r, Event.update_complete r ∈ pollRun c (PollResult.ok s :: rest) ↔
            s.status_report = some r)
        ∧ (∀ e, Event.update_error e ∈ pollRun c (PollResult.ok s :: rest) ↔
            s.error = some e)) := by
  have hshape := pollStep_ok_eq c s
  refine ⟨by rw [hshape], fun hcomp => ?_⟩
  have hhalt : (pollStep c (PollResult.ok s)).2.2 = true := by
    rw [hshape]
    exact hcomp
  have hrun : pollRun c (PollResult.ok s :: rest) =
      (pollStep c (PollResult.ok s)).1 := by
    rw [pollRun, pollRunAux_cons_halt _ _ _ hhalt]
    simp
  have hterm : terminalEvents s =
      (match s.status_report with
       | some report => [Event.update_complete report]
       | none => []) ++
      (match s.error with
       | some e => [Event.update_error e]
       | none => []) := by
    rw [terminalEvents, hcomp]
    simp
  refine ⟨?_, ?_, ?_⟩
  · rw [pollsExecuted, pollRunAux_cons_halt _ _ _ hhalt]
    rfl
  · intro r
    rw [hrun, hshape, hterm]
    rcases s.status_report with _ | rp <;> rcases s.error with _ | e <;>
      simp [List.mem_map, eq_comm]
  · intro e
    rw [hrun, hshape, hterm]
    rcases s.status_report with _ | rp <;> rcases s.error with _ | e2 <;>
      simp [List.mem_map, eq_comm]

/-- C2 witness: on the terminal snapshot `sBoth` (both `status_report`
and `error` present) one poll runs, and both terminal events are
emitted. -/
theorem C2_terminal_detection_witness :
    pollsExecuted 0 (PollResult.ok sBoth :: [PollResult.transportErr]) = 1
    ∧ (∀ r, Event.update_complete r ∈
        pollRun 0 (PollResult.ok sBoth :: [PollResult.transportErr]) ↔
        sBoth.status_report = some r)
    ∧ (∀ e, Event.update_error e ∈
        pollRun 0 (PollResult.ok sBoth :: [PollResult.transportErr]) ↔
        sBoth.error = some e) :=
  (C2_terminal_detection 0 sBoth [PollResult.transportErr]).2 rfl

/-- C3: a second `start_backend` call after a call that spawned a
still-running process returns the "already running" result, performs no
spawn, and leaves the single-slot handle unchanged. -/
theorem C3_start_idempotent (s0 : Option Nat) (tw1 tw2 : TryWait)
    (sp1 sp2 : SpawnResult)
    (h1 : (start_backend s0 tw1 sp1).spawned = true)
    (h2 : tw2 = TryWait.running) :
    (start_backend (start_backend s0 tw1 sp1).slot tw2 sp2).result =
      Except.ok "Backend already running"
    ∧ (start_backend (start_backend s0 tw1 sp1).slot tw2 sp2).spawned = false
    ∧ (start_backend (start_backend s0 tw1 sp1).slot tw2 sp2).slot =
      (start_backend s0 tw1 sp1).slot := by
  subst h2
  cases s0 <;> cases sp1 <;> cases tw1 <;> simp_all [start_backend]

/-- C3 witness: a first call that spawns (pid 7) followed by a second
call while the child still runs: the second call answers "already
running", spawns nothing, and keeps the handle. -/
theorem C3_start_idempotent_witness :
    (start_backend none TryWait.exited (SpawnResult.ok 7)).spawned = true
    ∧ ((start_backend (start_backend none TryWait.exited (SpawnResult.ok 7)).slot
          TryWait.running (SpawnResult.ok 8)).result =
        Except.ok "Backend already running"
       ∧ (start_backend (start_backend none TryWait.exited (SpawnResult.ok 7)).slot
          TryWait.running (SpawnResult.ok 8)).spawned = false
       ∧ (start_backend (start_backend none TryWait.exited (SpawnResult.ok 7)).slot
          TryWait.running (SpawnResult.ok 8)).slot =
        (start_backend none TryWait.exited (SpawnResult.ok 7)).slot) :=
  ⟨rfl, C3_start_idempotent none TryWait.exited TryWait.running
    (SpawnResult.ok 7) (SpawnResult.ok 8) rfl rfl⟩

/-- C4: a poll whose body fails to decode emits no events, leaves the
watermark unchanged and does not break the loop; the run goes on to the
next poll (after the fixed 500ms delay); and a step breaks exactly on a
transport failure or a decoded snapshot with `completed = true`. -/
theorem C4_decode_failure_skips (c : Nat) (rest : List PollResult) :
    pollStep c PollResult.decodeErr = ([], c, false)
    ∧ pollRun c (PollResult.decodeErr :: rest) = pollRun c rest
    ∧ pollsExecuted c (PollResult.decodeErr :: rest) = 1 + pollsExecuted c rest
    ∧ POLL_DELAY_MS = 500
    ∧ (∀ r, (pollStep c r).2.2 = true ↔
        (r = PollResult.transportErr ∨
         ∃ s, r = PollResult.ok s ∧ s.completed = true)) := by
  have hcont : (pollStep c PollResult.decodeErr).2.2 = false := rfl
  refine ⟨rfl, ?_, ?_, rfl, ?_⟩
  · rw [pollRun, pollRunAux_cons_cont _ _ _ hcont]
    rfl
  · rw [pollsExecuted, pollRunAux_cons_cont _ _ _ hcont]
    simp [pollsExecuted, Nat.add_comm]
    rfl
  · intro r
    cases r with
    | transportErr => simp [pollStep]
    | decodeErr => simp [pollStep]
    | ok s => simp [pollStep_ok_eq]

/-- C5: a transport failure on the first poll of a run ends the run at
once with zero events emitted. -/
theorem C5_first_poll_unreachable (rest : List PollResult) :
    poll_update_status (PollResult.transportErr :: rest) = []
    ∧ pollsExecuted 0 (PollResult.transportErr :: rest) = 1 := by
  have hhalt : (pollStep 0 PollResult.transportErr).2.2 = true := rfl
  constructor
  · rw [poll_update_status, pollRun, pollRunAux_cons_halt _ _ _ hhalt]
    rfl
  · rw [pollsExecuted, pollRunAux_cons_halt _ _ _ hhalt]
    rfl

/-- C6: `stop_backend` with a handle takes it (clearing the slot), kills
and waits, returning "stopped"; with no handle it succeeds with the
distinct "was not running" result, so a second call in sequence returns
"was not running" without error. -/
theorem C6_stop_idempotent (pid : Nat) (k : KillResult) :
    stop_backend (some pid) KillResult.ok =
      ⟨none, Except.ok "Backend stopped", true⟩
    ∧ stop_backend none k = ⟨none, Except.ok "Backend was not running", false⟩
    ∧ (stop_backend (stop_backend (some pid) KillResult.ok).slot k).result =
      Except.ok "Backend was not running" :=
  ⟨rfl, rfl, rfl⟩

/-- C7: per-iteration events are ordered progress first, then new log
messages, then terminal events; for the two-snapshot scenario of the
spec, the run emits exactly progress(1/5), log "a", progress(5/5),
log "b", update_complete. -/
theorem C7_event_order :
    (∀ c s, (pollStep c (PollResult.ok s)).1 =
      Event.update_progress s.progress s.total ::
        ((logDelta c s).map Event.log_message ++ terminalEvents s))
    ∧ (∀ (report : StatusReport) (ta tb : String),
        poll_update_status
          [PollResult.ok ⟨1, 5, [⟨"a", ta⟩], false, none, none⟩,
           PollResult.ok ⟨5, 5, [⟨"a", ta⟩, ⟨"b", tb⟩], true, none, some report⟩] =
        [Event.update_progress 1 5, Event.log_message ⟨"a", ta⟩,
         Event.update_progress 5 5, Event.log_message ⟨"b", tb⟩,
         Event.update_complete report]) := by
  constructor
  · intro c s
    rw [pollStep_ok_eq]
  · intro report ta tb
    rfl

/-- C8: `check_backend_health` never returns an error: the result is
`Ok true` exactly when the response status is 2xx, and any transport
failure yields `Ok false`. -/
theorem C8_health_never_errors :
    (∀ r, ∃ b, check_backend_health r = Except.ok b)
    ∧ (∀ code, check_backend_health (HealthResponse.ok code) =
        Except.ok true ↔ (200 ≤ code ∧ code < 300))
    ∧ check_backend_health HealthResponse.err = Except.ok false := by
  refine ⟨fun r => ?_, fun code => ?_, rfl⟩
  · cases r with
    | ok code => exact ⟨status_is_success code, rfl⟩
    | err => exact ⟨false, rfl⟩
  · simp [check_backend_health, status_is_success]

/-- C9: when the snapshot's log list is no longer than the watermark, no
`log_message` is emitted and the watermark is unchanged; and whenever the
slicing branch is taken (strict guard), the slice is the in-bounds suffix
of exactly `length - watermark` entries. -/
theorem C9_log_delta_total (c : Nat) (s : ProgressData)
    (h : s.logs.length ≤ c) :
    emittedLogs (pollStep c (PollResult.ok s)).1 = []
    ∧ (pollStep c (PollResult.ok s)).2.1 = c
    ∧ logDelta c s = []
    ∧ (∀ (c2 : Nat) (s2 : ProgressData), c2 < s2.logs.length →
        (logDelta c2 s2).length = s2.logs.length - c2) := by
  have hb : ¬ s.logs.length > c := Nat.not_lt.mpr h
  have hdelta : logDelta c s = [] := by
    rw [logDelta, if_neg hb]
  refine ⟨?_, ?_, hdelta, ?_⟩
  · rw [pollStep_ok_eq, emittedLogs_progress_cons, emittedLogs_append,
      emittedLogs_map_log, emittedLogs_terminalEvents, hdelta]
    rfl
  · rw [pollStep_ok_eq]
    simp [hb]
  · intro c2 s2 h2
    rw [logDelta, if_pos h2, List.length_drop]

/-- C9 witness: a snapshot with one log entry against watermark 2:
nothing is emitted and the watermark stays 2. -/
theorem C9_log_delta_total_witness :
    sShrunk.logs.length ≤ 2
    ∧ (emittedLogs (pollStep 2 (PollResult.ok sShrunk)).1 = []
       ∧ (pollStep 2 (PollResult.ok sShrunk)).2.1 = 2
       ∧ logDelta 2 sShrunk = []
       ∧ (∀ (c2 : Nat) (s2 : ProgressData), c2 < s2.logs.length →
           (logDelta c2 s2).length = s2.logs.length - c2)) :=
  ⟨by decide, C9_log_delta_total 2 sShrunk (by decide)⟩

/-- C10: when the kill fails, `stop_backend` returns an error but the
slot was already cleared by `take()` (and no wait happens), so the failed
stop is not atomic and an immediately following `stop_backend` returns
"was not running" instead of retrying. -/
theorem C10_stop_kill_failure (pid : Nat) (e : String) (k : KillResult) :
    stop_backend (some pid) (KillResult.err e) =
      ⟨none, Except.error ("Failed to stop backend: " ++ e), false⟩
    ∧ (stop_backend (stop_backend (some pid) (KillResult.err e)).slot k).result
        = Except.ok "Backend was not running" :=
  ⟨rfl, rfl⟩

end Patcher
